import Mathlib

/-!
# RadioAstronomyBaseband: the baseband pipeline of the radio astronomy channel

A shallow embedding of `plugins/channelrx/radioastronomy/radioastronomybaseband.h`,
followed by one of the channel and feature windows of `sdrgui`
(`channel/channelgui.cpp`, `feature/featuregui.cpp`).

The header gives the private state of the pipeline, the configuration message
class and the inline accessors (`getMagSqLevels`, `getMagSq`, `isRunning`,
`getInputMessageQueue`).  The bodies of the out-of-line members and the
collaborating classes (`RadioAstronomySettings`, `RadioAstronomySink`,
`DownChannelizer`, `SampleSinkFifo`, `MessageQueue`) are not among the sources;
each definition that stands for one of them says so in its doc comment and
follows the written specification instead.

Conventions of the embedding:
* a member function becomes a function from the state before the call to the
  state after it (paired with the values it hands back);
* `double` is idealised as an exact rational, `int` as an integer; where the
  sources compute with `int` values the result is brought back into 32 bits;
* the mutex is not modelled: every call is one atomic step.
-/

namespace SDRangel

/-! ## Collaborating value types -/

/-- Modelled from the spec: the class `RadioAstronomySettings` is declared in a
header that is not among the sources.  The specification describes it as a
value type holding the center-frequency offset, the bandwidth, the
integration/averaging window length and the detector thresholds. -/
structure RadioAstronomySettings where
  centerOffset : Int
  bandwidth : Int
  integrationWindow : Nat
  threshold : ℚ
deriving DecidableEq, Repr

/-- Modelled from the spec: the sample type is declared outside the sources.  A
sample is a complex (in-phase/quadrature) pair and a pure value. -/
structure Sample where
  re : ℚ
  im : ℚ
deriving DecidableEq, Repr

/-- An ordered finite run of samples, `SampleVector` in the header. -/
abbrev SampleVector := List Sample

/-- Magnitude-squared of a sample, the power proxy I² + Q² of the glossary. -/
def Sample.magSq (s : Sample) : ℚ := s.re * s.re + s.im * s.im

/-- The three values `getMagSqLevels` writes through its reference parameters
`double& avg, double& peak, int& nbSamples`. -/
structure MagSqLevels where
  avg : ℚ
  peak : ℚ
  nbSamples : Int
deriving DecidableEq, Repr

/-! ## The configuration message (header lines 40-61) -/

/-- The message class `MsgConfigureRadioAstronomyBaseband`: the private members
`m_settings` and `m_force`, filled in by the private constructor. -/
structure MsgConfigureRadioAstronomyBaseband where
  m_settings : RadioAstronomySettings
  m_force : Bool
deriving DecidableEq, Repr

namespace MsgConfigureRadioAstronomyBaseband

/-- Accessor `getSettings() const` returning `m_settings`. -/
def getSettings (m : MsgConfigureRadioAstronomyBaseband) : RadioAstronomySettings :=
  m.m_settings

/-- Accessor `getForce() const` returning `m_force`. -/
def getForce (m : MsgConfigureRadioAstronomyBaseband) : Bool :=
  m.m_force

/-- The static factory `create(settings, force)`, which calls the private
constructor with the same two arguments. -/
def create (settings : RadioAstronomySettings) (force : Bool) :
    MsgConfigureRadioAstronomyBaseband :=
  { m_settings := settings, m_force := force }

end MsgConfigureRadioAstronomyBaseband

/-- Modelled from the spec: the base class `Message` and its other subclasses
are declared outside the sources.  The control channel of the specification
carries Configure(settings, force), Start, Stop and Reset (section 4.4), as a
tagged variant (section 9). -/
inductive Message where
  | configure (cfg : MsgConfigureRadioAstronomyBaseband)
  | start
  | stop
  | reset
deriving DecidableEq, Repr

/-- Modelled from the spec: `MessageQueue` is declared outside the sources.  It is
an ordered queue; the head of the list is the oldest message. -/
abbrev MessageQueue := List Message

/-- Modelled from the spec: `MessageQueue::push` is outside the sources.  Posting
enqueues the command behind everything already pending. -/
def MessageQueue.push (q : MessageQueue) (msg : Message) : MessageQueue :=
  q ++ [msg]

/-! ## The sink -/

/-- Modelled from the spec: `RadioAstronomySink` is declared in
`radioastronomysink.h`, which is not among the sources.  The detector sink keeps
the settings handed to it, the latest magnitude-squared, and the running sum,
peak and count of magnitude-squared values since the last level report. -/
structure RadioAstronomySink where
  m_settings : RadioAstronomySettings
  m_magsq : ℚ
  m_magsqSum : ℚ
  m_magsqPeak : ℚ
  m_magsqCount : Int
deriving DecidableEq, Repr

namespace RadioAstronomySink

/-- Modelled from the spec: the sink constructor is outside the sources.  A new
sink has seen no sample: all level counters are zero. -/
def construct (settings : RadioAstronomySettings) : RadioAstronomySink :=
  { m_settings := settings, m_magsq := 0, m_magsqSum := 0, m_magsqPeak := 0,
    m_magsqCount := 0 }

/-- Modelled from the spec: the per-sample processing of the sink is outside the
sources.  One channelized sample adds its magnitude-squared to the running
sum, raises the peak if it is larger, and counts one more sample. -/
def processOneSample (k : RadioAstronomySink) (s : Sample) : RadioAstronomySink :=
  { k with
    m_magsq := s.magSq
    m_magsqSum := k.m_magsqSum + s.magSq
    m_magsqPeak := max k.m_magsqPeak s.magSq
    m_magsqCount := k.m_magsqCount + 1 }

/-- Modelled from the spec: `RadioAstronomySink::feed` is outside the sources.
The sink consumes channelized output in order. -/
def feed (k : RadioAstronomySink) (samples : SampleVector) : RadioAstronomySink :=
  samples.foldl processOneSample k

/-- Modelled from the spec: `RadioAstronomySink::getMagSq` is outside the
sources.  It is the latest computed magnitude-squared. -/
def getMagSq (k : RadioAstronomySink) : ℚ := k.m_magsq

/-- Modelled from the spec: clearing of the level counters of the sink (running
sum, peak, count), which Reset and the level report both perform.  The
function is outside the sources. -/
def resetLevels (k : RadioAstronomySink) : RadioAstronomySink :=
  { k with m_magsqSum := 0, m_magsqPeak := 0, m_magsqCount := 0 }

/-- Modelled from the spec: `RadioAstronomySink::getMagSqLevels` is outside the
sources.  It returns (average, peak, count since the last call) and resets the
counters (section 4.3); with no sample counted the report is (0, 0, 0)
(section 8). -/
def getMagSqLevels (k : RadioAstronomySink) : MagSqLevels × RadioAstronomySink :=
  ({ avg := if k.m_magsqCount = 0 then 0 else k.m_magsqSum / k.m_magsqCount
     peak := k.m_magsqPeak
     nbSamples := k.m_magsqCount },
   k.resetLevels)

/-- Modelled from the spec: `RadioAstronomySink::applySettings` is outside the
sources.  The sink receives the new snapshot as a whole. -/
def applySettings (k : RadioAstronomySink) (settings : RadioAstronomySettings) :
    RadioAstronomySink :=
  { k with m_settings := settings }

end RadioAstronomySink

/-! ## The sample FIFO and the channelizer -/

/-- Modelled from the spec: `SampleSinkFifo` is declared outside the sources.  It
holds the samples written and not yet read, oldest first.  Its capacity and
overflow policy, which the specification leaves open (section 9), are not part
of this model. -/
structure SampleSinkFifo where
  m_data : SampleVector
deriving DecidableEq, Repr

/-- Modelled from the spec: `SampleSinkFifo::write` is outside the sources.  The
batch is copied behind the samples already buffered. -/
def SampleSinkFifo.write (fifo : SampleSinkFifo) (batch : SampleVector) : SampleSinkFifo :=
  { m_data := fifo.m_data ++ batch }

/-- Modelled from the spec: `SampleSinkFifo::reset` is outside the sources.  It
discards the buffered samples. -/
def SampleSinkFifo.reset (_fifo : SampleSinkFifo) : SampleSinkFifo :=
  { m_data := [] }

/-- Modelled from the spec: `DownChannelizer` is only forward-declared in the
header.  It holds the assumed input sample rate, the channel offset as a
normalized fraction of that rate, and the decimation factor. -/
structure DownChannelizer where
  m_basebandSampleRate : Int
  m_channelOffset : ℚ
  m_decimation : Nat
deriving DecidableEq, Repr

/-- Modelled from the spec: the offset is the distance between the channel center
and the baseband center as a normalized fraction of the input sample rate
(section 4.2). -/
def channelOffset (sampleRate : Int) (settings : RadioAstronomySettings) : ℚ :=
  (settings.centerOffset : ℚ) / (sampleRate : ℚ)

/-- Modelled from the spec: the decimation factor is the largest integer power
consistent with covering the requested bandwidth (section 4.2), read as the
largest power of two `d` with `bandwidth * d ≤ sampleRate`, and 1 when there is
none. -/
def decimationFactor (sampleRate : Int) (settings : RadioAstronomySettings) : Nat :=
  2 ^ Nat.log2 (sampleRate.toNat / settings.bandwidth.toNat)

/-- Modelled from the spec: deriving the channelizer parameters from a sample rate
and a settings snapshot; the member doing this is outside the sources. -/
def DownChannelizer.setChannelization (sampleRate : Int) (settings : RadioAstronomySettings) :
    DownChannelizer :=
  { m_basebandSampleRate := sampleRate
    m_channelOffset := channelOffset sampleRate settings
    m_decimation := decimationFactor sampleRate settings }

/-- Modelled from the spec: the Nyquist limit of a sample rate (section 7).  The
samples are complex, and a bandwidth equal to the full rate is a valid
configuration (decimation 1, section 8), so the limit is the rate itself. -/
def nyquistLimit (sampleRate : Int) : Int := sampleRate

/-! ## The pipeline -/

/-- The private state of `RadioAstronomyBaseband` (header lines 81-87), without
the mutex. -/
structure RadioAstronomyBaseband where
  m_sampleFifo : SampleSinkFifo
  m_channelizer : DownChannelizer
  m_sink : RadioAstronomySink
  m_inputMessageQueue : MessageQueue
  m_settings : RadioAstronomySettings
  m_running : Bool
deriving DecidableEq, Repr

namespace RadioAstronomyBaseband

/-- Modelled from the spec: the constructor body is outside the sources.  The
pipeline starts Stopped with empty buffers and zero counters.  The default
settings and the initial sample rate are defined outside the sources and are
parameters here. -/
def construct (defaults : RadioAstronomySettings) (basebandSampleRate : Int) :
    RadioAstronomyBaseband :=
  { m_sampleFifo := { m_data := [] }
    m_channelizer := DownChannelizer.setChannelization basebandSampleRate defaults
    m_sink := RadioAstronomySink.construct defaults
    m_inputMessageQueue := []
    m_settings := defaults
    m_running := false }

/-- Inline member `isRunning() const` (header line 77). -/
def isRunning (b : RadioAstronomyBaseband) : Bool := b.m_running

/-- Inline member `getInputMessageQueue()` (header line 69). -/
def getInputMessageQueue (b : RadioAstronomyBaseband) : MessageQueue :=
  b.m_inputMessageQueue

/-- Inline member `getMagSq() const` (header line 76). -/
def getMagSq (b : RadioAstronomyBaseband) : ℚ := b.m_sink.getMagSq

/-- Inline member `getMagSqLevels(avg, peak, nbSamples)` (header lines 70-72): the
call is passed to the sink, which may update its own state. -/
def getMagSqLevels (b : RadioAstronomyBaseband) : MagSqLevels × RadioAstronomyBaseband :=
  ((b.m_sink.getMagSqLevels).1, { b with m_sink := (b.m_sink.getMagSqLevels).2 })

/-- A caller posting a message to the queue handed out by `getInputMessageQueue`. -/
def postMessage (b : RadioAstronomyBaseband) (msg : Message) : RadioAstronomyBaseband :=
  { b with m_inputMessageQueue := b.m_inputMessageQueue.push msg }

/-- Modelled from the spec: the body of `startWork` is outside the sources.  Start
moves the pipeline to Running (section 4.5). -/
def startWork (b : RadioAstronomyBaseband) : RadioAstronomyBaseband :=
  { b with m_running := true }

/-- Modelled from the spec: the body of `stopWork` is outside the sources.  Stop
moves the pipeline to Stopped (section 4.5). -/
def stopWork (b : RadioAstronomyBaseband) : RadioAstronomyBaseband :=
  { b with m_running := false }

/-- Modelled from the spec: the body of `reset` is outside the sources.  Reset
clears the sample FIFO contents and the sink counters and changes neither the
lifecycle state nor the settings (section 4.5). -/
def reset (b : RadioAstronomyBaseband) : RadioAstronomyBaseband :=
  { b with m_sampleFifo := b.m_sampleFifo.reset, m_sink := b.m_sink.resetLevels }

/-- Modelled from the spec: the body of `feed` is outside the sources.  While
Running the batch is copied into the sample FIFO; while Stopped it is accepted
and discarded (section 4.5). -/
def feed (b : RadioAstronomyBaseband) (batch : SampleVector) : RadioAstronomyBaseband :=
  if b.m_running then { b with m_sampleFifo := b.m_sampleFifo.write batch } else b

/-- Modelled from the spec: the body of `setBasebandSampleRate` is outside the
sources.  It updates the assumed input rate and derives the channelizer
parameters again from the active settings (section 6). -/
def setBasebandSampleRate (b : RadioAstronomyBaseband) (sampleRate : Int) :
    RadioAstronomyBaseband :=
  { b with m_channelizer := DownChannelizer.setChannelization sampleRate b.m_settings }

/-- Modelled from the spec: the body of `applySettings` is outside the sources; the
header declares it `void`.
* A snapshot whose bandwidth exceeds the Nyquist limit of the current sample
  rate is rejected: the previous settings remain active and nothing changes
  (section 7).
* Otherwise a snapshot equal to the active one, without `force`, is a no-op
  (section 4.4).
* Otherwise the channelizer offset and decimation are derived again, the sink
  receives the snapshot, and it becomes the active one (section 4.5). -/
def applySettings (b : RadioAstronomyBaseband) (settings : RadioAstronomySettings)
    (force : Bool) : RadioAstronomyBaseband :=
  if nyquistLimit b.m_channelizer.m_basebandSampleRate < settings.bandwidth then
    b
  else if !force && settings = b.m_settings then
    b
  else
    { b with
      m_channelizer :=
        DownChannelizer.setChannelization b.m_channelizer.m_basebandSampleRate settings
      m_sink := b.m_sink.applySettings settings
      m_settings := settings }

/-- Modelled from the spec: the body of `handleMessage` is outside the sources.
Each command of the control channel is dispatched to the operation it names
(section 4.4).  The second component is the `bool` the header declares for the
function; it tells that the command is one the pipeline handles, which all
four commands of the control channel are. -/
def handleMessage (b : RadioAstronomyBaseband) (cmd : Message) :
    RadioAstronomyBaseband × Bool :=
  match cmd with
  | Message.configure cfg => (b.applySettings cfg.getSettings cfg.getForce, true)
  | Message.start => (b.startWork, true)
  | Message.stop => (b.stopWork, true)
  | Message.reset => (b.reset, true)

/-- The pending commands applied one after the other, oldest first, to a state
whose queue has already been emptied. -/
def applyPending (b : RadioAstronomyBaseband) : List Message → RadioAstronomyBaseband
  | [] => b
  | cmd :: rest => applyPending (b.handleMessage cmd).1 rest

/-- Modelled from the spec: the body of `handleInputMessages` is outside the
sources; the header declares it `void`.  All pending commands are taken off
the queue and applied in arrival order (section 4.4). -/
def handleInputMessages (b : RadioAstronomyBaseband) : RadioAstronomyBaseband :=
  applyPending { b with m_inputMessageQueue := [] } b.m_inputMessageQueue

end RadioAstronomyBaseband

/-! ## Sequences of calls -/

/-- The public calls that a lifecycle trace is made of. -/
inductive Call where
  | startWork
  | stopWork
  | reset
  | feed (batch : SampleVector)
deriving DecidableEq, Repr

/-- Whether a call is one of the two lifecycle calls `startWork` and `stopWork`. -/
def Call.isLifecycle : Call → Bool
  | Call.startWork => true
  | Call.stopWork => true
  | Call.reset => false
  | Call.feed _ => false

/-- The last call among `startWork`/`stopWork` in a trace, if there is one. -/
def lastLifecycleCall (calls : List Call) : Option Call :=
  (calls.filter Call.isLifecycle).getLast?

/-- One call made on the pipeline. -/
def RadioAstronomyBaseband.call (b : RadioAstronomyBaseband) : Call → RadioAstronomyBaseband
  | Call.startWork => b.startWork
  | Call.stopWork => b.stopWork
  | Call.reset => b.reset
  | Call.feed batch => b.feed batch

/-- A trace of calls made one after the other. -/
def RadioAstronomyBaseband.run (b : RadioAstronomyBaseband) (calls : List Call) :
    RadioAstronomyBaseband :=
  calls.foldl RadioAstronomyBaseband.call b

/-! ## Concrete pipelines used as examples -/

/-- A settings snapshot with a 1 kHz bandwidth. -/
def exampleDefaults : RadioAstronomySettings :=
  { centerOffset := 0, bandwidth := 1000, integrationWindow := 1, threshold := 0 }

/-- A Running pipeline with buffered samples and non-zero level counters. -/
def exampleBusy : RadioAstronomyBaseband :=
  { m_sampleFifo := { m_data := [{ re := 1, im := 0 }, { re := 0, im := 1 }] }
    m_channelizer := DownChannelizer.setChannelization 48000 exampleDefaults
    m_sink := { m_settings := exampleDefaults, m_magsq := 1, m_magsqSum := 6,
                m_magsqPeak := 4, m_magsqCount := 3 }
    m_inputMessageQueue := [Message.stop]
    m_settings := exampleDefaults
    m_running := true }

/-! ## A call of `getMagSq` as a step -/

/-- One call of the const member `getMagSq` (header line 76) seen as a step: the
value handed back and the state after the call.  The member is declared
`const` and calls the sink through the member object `m_sink`, so neither the
pipeline nor the sink is written. -/
def RadioAstronomyBaseband.getMagSqCall (b : RadioAstronomyBaseband) :
    ℚ × RadioAstronomyBaseband :=
  (b.getMagSq, b)

/-! ## The channel and feature windows

`sdrgui/channel/channelgui.cpp` and `sdrgui/feature/featuregui.cpp`.  The class
declarations (`channelgui.h`, `featuregui.h`) are not among the sources; the
members below are the ones the two `.cpp` files read and write.  A `QString` is
a string, a `QLabel` is the text it shows, `tr` is the identity (no translation
loaded), and `QString::arg` puts its argument in place of the lowest numbered
place marker of the format, so the chained calls fill `%1`, `%2`, ... in
order.  A `QWidget*` key is a number. -/

/-- The device type of a channel window.  `DeviceRx`, `DeviceTx` and `DeviceMIMO`
are the enumerators named in `channelgui.cpp`; `other` stands for any value
that is none of the three, the `default` branch of `getDeviceTypeTag`. -/
inductive DeviceType where
  | DeviceRx
  | DeviceTx
  | DeviceMIMO
  | other (raw : Int)
deriving DecidableEq, Repr

/-- The text `QString::arg(int)` writes for a number: decimal, with a minus sign
when negative. -/
def argInt (n : Int) : String := toString n

/-- The test `QString::startsWith(pre)`: the characters of `pre` are the first
characters of the string. -/
def qStartsWith (s pre : String) : Bool := pre.toList.isPrefixOf s.toList

/-- The value a 32-bit `int` holds when an arithmetic result is brought back into
its range, two's complement. -/
def wrapInt (x : Int) : Int := (x + 2147483648) % 4294967296 - 2147483648

/-- Addition of two `int` values. -/
def intAdd (a b : Int) : Int := wrapInt (a + b)

/-- Subtraction of two `int` values. -/
def intSub (a b : Int) : Int := wrapInt (a - b)

/-- The test `QMap::contains(key)` on `m_heightsMap`. -/
def heightsContains (m : List (Nat × Int)) (widget : Nat) : Bool :=
  (m.lookup widget).isSome

/-- The read `m_heightsMap[key]` of a key; a key that is absent reads as the
default value 0. -/
def heightsValue (m : List (Nat × Int)) (widget : Nat) : Int :=
  (m.lookup widget).getD 0

/-- The write `m_heightsMap[key] = value`: the key maps to the new value only. -/
def heightsInsert (m : List (Nat × Int)) (widget : Nat) (value : Int) : List (Nat × Int) :=
  (widget, value) :: m.filter (fun entry => entry.1 != widget)

/-- The `QWidget*` argument of `onWidgetRolled`: the key it is stored under, and
what `height()` and `minimumHeight()` return for it at the time of the call. -/
structure RolledWidget where
  key : Nat
  height : Int
  minimumHeight : Int
deriving DecidableEq, Repr

/-- The members of `ChannelGUI` used by the functions below.  `streamIndex` is
what the virtual `getStreamIndex()` of the concrete channel window returns. -/
structure ChannelGUI where
  m_deviceType : DeviceType
  m_deviceSetIndex : Int
  m_channelIndex : Int
  m_indexLabel : String
  m_helpURL : String
  m_heightsMap : List (Nat × Int)
  streamIndex : Int
deriving DecidableEq, Repr

namespace ChannelGUI

/-- The constructor (lines 36-56): device type `DeviceRx`, both indexes 0, and the
label text `tr("X%1:%2").arg(m_deviceSetIndex).arg(m_channelIndex)`.  The help
URL and the heights map are default constructed. -/
def construct (streamIndex : Int) : ChannelGUI :=
  { m_deviceType := DeviceType.DeviceRx
    m_deviceSetIndex := 0
    m_channelIndex := 0
    m_indexLabel := "X" ++ argInt 0 ++ ":" ++ argInt 0
    m_helpURL := ""
    m_heightsMap := []
    streamIndex := streamIndex }

/-- Member `getStreamIndex()`, implemented by the concrete channel window. -/
def getStreamIndex (g : ChannelGUI) : Int := g.streamIndex

/-- Member `getDeviceTypeTag` (lines 405-418). -/
def getDeviceTypeTag (g : ChannelGUI) : String :=
  match g.m_deviceType with
  | DeviceType.DeviceRx => "R"
  | DeviceType.DeviceTx => "T"
  | DeviceType.DeviceMIMO => "M"
  | DeviceType.other _ => "X"

/-- Member `updateIndexLabel` (lines 383-391): the format `"%1%2:%3.%4"` for a MIMO
device with a stream index that is not negative, `"%1%2:%3"` otherwise. -/
def updateIndexLabel (g : ChannelGUI) : ChannelGUI :=
  if g.m_deviceType = DeviceType.DeviceMIMO ∧ g.getStreamIndex ≥ 0 then
    { g with
      m_indexLabel :=
        g.getDeviceTypeTag ++ argInt g.m_deviceSetIndex ++ ":" ++ argInt g.m_channelIndex
          ++ "." ++ argInt g.getStreamIndex }
  else
    { g with
      m_indexLabel :=
        g.getDeviceTypeTag ++ argInt g.m_deviceSetIndex ++ ":" ++ argInt g.m_channelIndex }

/-- Member `setDeviceType` (lines 345-349). -/
def setDeviceType (g : ChannelGUI) (type : DeviceType) : ChannelGUI :=
  updateIndexLabel { g with m_deviceType := type }

/-- Member `setIndex` (lines 361-365). -/
def setIndex (g : ChannelGUI) (index : Int) : ChannelGUI :=
  updateIndexLabel { g with m_channelIndex := index }

/-- Member `setDeviceSetIndex` (lines 367-371). -/
def setDeviceSetIndex (g : ChannelGUI) (index : Int) : ChannelGUI :=
  updateIndexLabel { g with m_deviceSetIndex := index }

/-- Member `showHelp` (lines 266-281): the string handed to
`QDesktopServices::openUrl(QUrl(url))`, or `none` when the function returns
before opening anything. -/
def showHelp (g : ChannelGUI) : Option String :=
  if g.m_helpURL.isEmpty then
    none
  else if qStartsWith g.m_helpURL "http" then
    some g.m_helpURL
  else
    some ("https://github.com/f4exb/sdrangel/blob/master/" ++ g.m_helpURL)

/-- Member `onWidgetRolled` (lines 294-308): the state after the call and the
height passed to `resize(width(), ...)`.  `rollupHeight` is what
`m_rollupContents->height()` returns.  The sums `52 + 3 + height + dh` and the
difference `m_heightsMap[widget] - widget->height()` are `int` arithmetic,
evaluated left to right. -/
def onWidgetRolled (g : ChannelGUI) (rollupHeight : Int) (widget : RolledWidget)
    (showIt : Bool) : ChannelGUI × Int :=
  if showIt then
    (g,
     intAdd (intAdd (intAdd 52 3) rollupHeight)
       (if heightsContains g.m_heightsMap widget.key then
          intSub (heightsValue g.m_heightsMap widget.key) widget.height
        else widget.minimumHeight))
  else
    ({ g with m_heightsMap := heightsInsert g.m_heightsMap widget.key widget.height },
     intAdd (intAdd 52 3) rollupHeight)

/-- Member `openMoveToDeviceSetDialog` (lines 315-323): the state after the call and
the argument of the signal `moveToDeviceSet` when it is emitted.  The two
parameters are what `dialog.hasChanged()` and `dialog.getSelectedIndex()`
return once the dialog has run. -/
def openMoveToDeviceSetDialog (g : ChannelGUI) (dialogHasChanged : Bool)
    (dialogSelectedIndex : Int) : ChannelGUI × Option Int :=
  if dialogHasChanged && (dialogSelectedIndex != g.m_deviceSetIndex) then
    (g, some dialogSelectedIndex)
  else
    (g, none)

end ChannelGUI

/-- The three setters that rewrite the index label of a channel window. -/
inductive ChannelGUISetter where
  | setDeviceType (type : DeviceType)
  | setIndex (index : Int)
  | setDeviceSetIndex (index : Int)
deriving DecidableEq, Repr

/-- One setter call made on a channel window. -/
def ChannelGUI.applySetter (g : ChannelGUI) : ChannelGUISetter → ChannelGUI
  | ChannelGUISetter.setDeviceType type => g.setDeviceType type
  | ChannelGUISetter.setIndex index => g.setIndex index
  | ChannelGUISetter.setDeviceSetIndex index => g.setDeviceSetIndex index

/-- A sequence of setter calls made one after the other. -/
def ChannelGUI.applySetters (g : ChannelGUI) (calls : List ChannelGUISetter) : ChannelGUI :=
  calls.foldl ChannelGUI.applySetter g

/-- The index label as the claim words it: tag, device-set index, a colon, the
channel index, and then a dot and the stream index exactly when the device
type is MIMO and the stream index is not negative. -/
def indexLabelText (type : DeviceType) (deviceSetIndex channelIndex streamIndex : Int) :
    String :=
  (match type with
   | DeviceType.DeviceRx => "R"
   | DeviceType.DeviceTx => "T"
   | DeviceType.DeviceMIMO => "M"
   | DeviceType.other _ => "X")
  ++ argInt deviceSetIndex ++ ":" ++ argInt channelIndex
  ++ (if type = DeviceType.DeviceMIMO ∧ 0 ≤ streamIndex then "." ++ argInt streamIndex else "")

/-- The members of `FeatureGUI` used by the functions below. -/
structure FeatureGUI where
  m_featureIndex : Int
  m_indexLabel : String
  m_helpURL : String
  m_heightsMap : List (Nat × Int)
deriving DecidableEq, Repr

namespace FeatureGUI

/-- The constructor (lines 33-51): feature index 0 and the label text
`tr("F:%1").arg(m_featureIndex)`. -/
def construct : FeatureGUI :=
  { m_featureIndex := 0
    m_indexLabel := "F:" ++ argInt 0
    m_helpURL := ""
    m_heightsMap := [] }

/-- Member `showHelp` (lines 219-234): the string handed to
`QDesktopServices::openUrl(QUrl(url))`, or `none` when nothing is opened. -/
def showHelp (f : FeatureGUI) : Option String :=
  if f.m_helpURL.isEmpty then
    none
  else if qStartsWith f.m_helpURL "http" then
    some f.m_helpURL
  else
    some ("https://github.com/f4exb/sdrangel/blob/master/" ++ f.m_helpURL)

/-- Member `onWidgetRolled` (lines 247-261): the state after the call and the
height passed to `resize(width(), ...)`, in `int` arithmetic. -/
def onWidgetRolled (f : FeatureGUI) (rollupHeight : Int) (widget : RolledWidget)
    (showIt : Bool) : FeatureGUI × Int :=
  if showIt then
    (f,
     intAdd (intAdd 52 rollupHeight)
       (if heightsContains f.m_heightsMap widget.key then
          intSub (heightsValue f.m_heightsMap widget.key) widget.height
        else widget.minimumHeight))
  else
    ({ f with m_heightsMap := heightsInsert f.m_heightsMap widget.key widget.height },
     intAdd 52 rollupHeight)

end FeatureGUI

/-- A MIMO channel window on stream 1 whose widget 7 was hidden at height 120. -/
def exampleChannelGUI : ChannelGUI :=
  { m_deviceType := DeviceType.DeviceMIMO
    m_deviceSetIndex := 2
    m_channelIndex := 5
    m_indexLabel := "M2:5.1"
    m_helpURL := "plugins/channelrx/radioastronomy/readme.md"
    m_heightsMap := [(7, 120)]
    streamIndex := 1 }

/-- A feature window whose widget 7 was hidden at height 80. -/
def exampleFeatureGUI : FeatureGUI :=
  { m_featureIndex := 3
    m_indexLabel := "F:3"
    m_helpURL := "https://www.sdrangel.org"
    m_heightsMap := [(7, 80)] }

/-! ## Helper lemmas -/

open RadioAstronomyBaseband

theorem run_append_singleton (b : RadioAstronomyBaseband) (calls : List Call) (c : Call) :
    b.run (calls ++ [c]) = (b.run calls).call c := by
  simp [RadioAstronomyBaseband.run, List.foldl_append]

theorem lastLifecycleCall_append_singleton (calls : List Call) (c : Call) :
    lastLifecycleCall (calls ++ [c]) =
      if c.isLifecycle then some c else lastLifecycleCall calls := by
  unfold lastLifecycleCall
  by_cases hc : c.isLifecycle = true
  · simp [List.filter_append, hc]
  · simp [List.filter_append, hc]

/-- The running flag after a trace is decided by the last lifecycle call of the
trace, and is the flag before the trace when there is none. -/
theorem isRunning_run (b : RadioAstronomyBaseband) (calls : List Call) :
    (b.run calls).isRunning =
      match lastLifecycleCall calls with
      | some Call.startWork => true
      | some _ => false
      | none => b.isRunning := by
  induction calls using List.reverseRecOn with
  | nil => simp [RadioAstronomyBaseband.run, lastLifecycleCall]
  | append_singleton calls c ih =>
    rw [run_append_singleton, lastLifecycleCall_append_singleton]
    cases c with
    | startWork => simp [RadioAstronomyBaseband.call, startWork, isRunning, Call.isLifecycle]
    | stopWork => simp [RadioAstronomyBaseband.call, stopWork, isRunning, Call.isLifecycle]
    | reset =>
      simp only [RadioAstronomyBaseband.call, Call.isLifecycle, Bool.false_eq_true, if_false]
      rw [← ih]
      simp [reset, isRunning]
    | feed batch =>
      simp only [RadioAstronomyBaseband.call, Call.isLifecycle, Bool.false_eq_true, if_false]
      rw [← ih]
      unfold feed isRunning
      split <;> simp

/-- An acceptable snapshot is the active one after `applySettings`, whatever the
force flag and the settings before. -/
theorem applySettings_accepted (b : RadioAstronomyBaseband) (s : RadioAstronomySettings)
    (force : Bool) (h : s.bandwidth ≤ nyquistLimit b.m_channelizer.m_basebandSampleRate) :
    (b.applySettings s force).m_settings = s := by
  unfold applySettings
  rw [if_neg (not_lt.mpr h)]
  split
  · rename_i heq
    simp only [Bool.and_eq_true, decide_eq_true_eq] at heq
    exact heq.2.symm
  · rfl

/-- A snapshot above the Nyquist limit changes nothing. -/
theorem applySettings_rejected (b : RadioAstronomyBaseband) (s : RadioAstronomySettings)
    (force : Bool) (h : nyquistLimit b.m_channelizer.m_basebandSampleRate < s.bandwidth) :
    b.applySettings s force = b := by
  unfold applySettings
  rw [if_pos h]

/-- A snapshot equal to the active one, without force, leaves the state as it is. -/
theorem applySettings_same (b : RadioAstronomyBaseband) :
    b.applySettings b.m_settings false = b := by
  unfold applySettings
  split
  · rfl
  · simp

theorem feed_stopped (b : RadioAstronomyBaseband) (batch : SampleVector)
    (h : b.isRunning = false) : b.feed batch = b := by
  unfold isRunning at h
  simp [feed, h]

theorem foldl_feed_stopped (batches : List SampleVector) (b : RadioAstronomyBaseband)
    (h : b.isRunning = false) : batches.foldl feed b = b := by
  induction batches with
  | nil => rfl
  | cons batch rest ih => rw [List.foldl_cons, feed_stopped b batch h, ih]

/-- The text `updateIndexLabel` writes is the worded format of the current
fields. -/
theorem updateIndexLabel_text (g : ChannelGUI) :
    g.updateIndexLabel.m_indexLabel =
      indexLabelText g.m_deviceType g.m_deviceSetIndex g.m_channelIndex g.streamIndex := by
  unfold ChannelGUI.updateIndexLabel indexLabelText ChannelGUI.getDeviceTypeTag
    ChannelGUI.getStreamIndex
  by_cases h : g.m_deviceType = DeviceType.DeviceMIMO ∧ g.streamIndex ≥ 0
  · rw [if_pos h, if_pos h]
    simp only [String.append_assoc]
  · rw [if_neg h, if_neg h]
    simp only [String.append_empty]

/-- Apart from the label text, `updateIndexLabel` leaves every member as it was. -/
theorem updateIndexLabel_frame (g : ChannelGUI) :
    g.updateIndexLabel = { g with m_indexLabel := g.updateIndexLabel.m_indexLabel } := by
  unfold ChannelGUI.updateIndexLabel
  split <;> rfl

/-- Writing the label twice gives the text written once. -/
theorem updateIndexLabel_idem (g : ChannelGUI) :
    g.updateIndexLabel.updateIndexLabel.m_indexLabel = g.updateIndexLabel.m_indexLabel := by
  rw [updateIndexLabel_text, updateIndexLabel_text]
  rw [updateIndexLabel_frame g]

/-- After any one setter the label is the text `updateIndexLabel` computes. -/
theorem applySetter_label (g : ChannelGUI) (call : ChannelGUISetter) :
    (g.applySetter call).m_indexLabel = (g.applySetter call).updateIndexLabel.m_indexLabel := by
  cases call with
  | setDeviceType type => exact (updateIndexLabel_idem _).symm
  | setIndex index => exact (updateIndexLabel_idem _).symm
  | setDeviceSetIndex index => exact (updateIndexLabel_idem _).symm

theorem applySetters_append_singleton (g : ChannelGUI) (calls : List ChannelGUISetter)
    (call : ChannelGUISetter) :
    g.applySetters (calls ++ [call]) = (g.applySetters calls).applySetter call := by
  simp [ChannelGUI.applySetters, List.foldl_append]

/-- A result inside the 32-bit range is kept as it is. -/
theorem wrapInt_of_fits (x : Int) (hlo : -2147483648 ≤ x) (hhi : x ≤ 2147483647) :
    wrapInt x = x := by
  unfold wrapInt
  omega

/-- The difference of an `int` value and itself is 0. -/
theorem intSub_self (x : Int) : intSub x x = 0 := by
  unfold intSub wrapInt
  rw [sub_self]
  decide

theorem heightsContains_insert (m : List (Nat × Int)) (widget : Nat) (value : Int) :
    heightsContains (heightsInsert m widget value) widget = true := by
  simp [heightsContains, heightsInsert, List.lookup]

theorem heightsValue_insert (m : List (Nat × Int)) (widget : Nat) (value : Int) :
    heightsValue (heightsInsert m widget value) widget = value := by
  simp [heightsValue, heightsInsert, List.lookup]

/-! ## Claims -/

/-- C1. Lifecycle state machine: a freshly constructed pipeline is not running;
after `startWork` it is running; after `stopWork` it is not; and after any
trace of `startWork`/`stopWork`/`reset`/`feed` calls on a fresh pipeline
`isRunning` is true exactly when the last call among `startWork`/`stopWork`
in the trace was `startWork`. -/
theorem lifecycle_state_machine :
    (∀ (defaults : RadioAstronomySettings) (rate : Int),
        (construct defaults rate).isRunning = false) ∧
    (∀ b : RadioAstronomyBaseband, b.startWork.isRunning = true) ∧
    (∀ b : RadioAstronomyBaseband, b.stopWork.isRunning = false) ∧
    (∀ (defaults : RadioAstronomySettings) (rate : Int) (calls : List Call),
        ((construct defaults rate).run calls).isRunning = true ↔
          lastLifecycleCall calls = some Call.startWork) := by
  refine ⟨fun _ _ => rfl, fun _ => rfl, fun _ => rfl, ?_⟩
  intro defaults rate calls
  rw [isRunning_run]
  cases h : lastLifecycleCall calls with
  | none => simp [construct, isRunning]
  | some c => cases c <;> simp

/-- C2. Configure idempotence: a Configure message carrying the active settings
with force = false leaves the whole pipeline state (active settings,
channelizer offset and decimation, sink state and everything else) as it was;
and for every state and every settings value, handling the same
Configure(s, force = false) twice gives the state that handling it once
gives. -/
theorem configure_unforced_idempotent :
    (∀ b : RadioAstronomyBaseband,
        (b.handleMessage
          (Message.configure (MsgConfigureRadioAstronomyBaseband.create b.m_settings false))).1
          = b) ∧
    (∀ (b : RadioAstronomyBaseband) (s : RadioAstronomySettings),
        (((b.handleMessage
            (Message.configure (MsgConfigureRadioAstronomyBaseband.create s false))).1).handleMessage
          (Message.configure (MsgConfigureRadioAstronomyBaseband.create s false))).1
          = (b.handleMessage
              (Message.configure (MsgConfigureRadioAstronomyBaseband.create s false))).1) := by
  constructor
  · intro b
    exact applySettings_same b
  · intro b s
    simp only [handleMessage, MsgConfigureRadioAstronomyBaseband.create,
      MsgConfigureRadioAstronomyBaseband.getSettings, MsgConfigureRadioAstronomyBaseband.getForce]
    by_cases hv : nyquistLimit b.m_channelizer.m_basebandSampleRate < s.bandwidth
    · rw [applySettings_rejected b s false hv]
      exact applySettings_rejected b s false hv
    · have hacc := applySettings_accepted b s false (not_lt.mp hv)
      have hsame := applySettings_same (b.applySettings s false)
      rw [hacc] at hsame
      exact hsame

/-- C4. Configure message round trip: the message made by `create(s, f)` returns
`s` from `getSettings` and `f` from `getForce`, and a message is determined by
these two values. -/
theorem msgConfigure_create_roundtrip :
    (∀ (s : RadioAstronomySettings) (f : Bool),
        (MsgConfigureRadioAstronomyBaseband.create s f).getSettings = s ∧
        (MsgConfigureRadioAstronomyBaseband.create s f).getForce = f) ∧
    (∀ m : MsgConfigureRadioAstronomyBaseband,
        MsgConfigureRadioAstronomyBaseband.create m.getSettings m.getForce = m) :=
  ⟨fun _ _ => ⟨rfl, rfl⟩, fun _ => rfl⟩

/-- C5. The level report is read-and-clear: `getMagSqLevels` returns the average
(sum over count, 0 when nothing was counted), the peak and the count gathered
since the previous call, leaves the three counters at zero, and a second call
made with no sample processing in between reports a sample count of 0. -/
theorem getMagSqLevels_read_and_clear (b : RadioAstronomyBaseband) :
    b.getMagSqLevels.1.avg =
        (if b.m_sink.m_magsqCount = 0 then 0
         else b.m_sink.m_magsqSum / b.m_sink.m_magsqCount) ∧
    b.getMagSqLevels.1.peak = b.m_sink.m_magsqPeak ∧
    b.getMagSqLevels.1.nbSamples = b.m_sink.m_magsqCount ∧
    b.getMagSqLevels.2.m_sink.m_magsqSum = 0 ∧
    b.getMagSqLevels.2.m_sink.m_magsqPeak = 0 ∧
    b.getMagSqLevels.2.m_sink.m_magsqCount = 0 ∧
    b.getMagSqLevels.2.getMagSqLevels.1.nbSamples = 0 :=
  ⟨rfl, rfl, rfl, rfl, rfl, rfl, rfl⟩

/-- C6. The pipeline `getMagSqLevels` is a pure delegation: the triple it returns
is the triple the sink returns on the same sink state, the sink is left as
the sink call leaves it, and the running flag, the active settings, the input
message queue, the sample FIFO and the channelizer are unchanged. -/
theorem getMagSqLevels_delegates_to_sink (b : RadioAstronomyBaseband) :
    b.getMagSqLevels.1 = b.m_sink.getMagSqLevels.1 ∧
    b.getMagSqLevels.2.m_sink = b.m_sink.getMagSqLevels.2 ∧
    b.getMagSqLevels.2.m_running = b.m_running ∧
    b.getMagSqLevels.2.m_settings = b.m_settings ∧
    b.getMagSqLevels.2.m_inputMessageQueue = b.m_inputMessageQueue ∧
    b.getMagSqLevels.2.m_sampleFifo = b.m_sampleFifo ∧
    b.getMagSqLevels.2.m_channelizer = b.m_channelizer :=
  ⟨rfl, rfl, rfl, rfl, rfl, rfl, rfl⟩

/-- C7. Reset frame condition: in every state `reset` leaves `isRunning` and the
active settings unchanged; it empties the sample FIFO and zeroes the level
counters of the sink, and everything else (channelizer, input message queue,
the settings and latest magnitude-squared held by the sink) stays as it
was. -/
theorem reset_frame (b : RadioAstronomyBaseband) :
    b.reset.isRunning = b.isRunning ∧
    b.reset.m_settings = b.m_settings ∧
    b.reset.m_sampleFifo.m_data = [] ∧
    b.reset.m_sink.m_magsqSum = 0 ∧
    b.reset.m_sink.m_magsqPeak = 0 ∧
    b.reset.m_sink.m_magsqCount = 0 ∧
    b.reset.m_channelizer = b.m_channelizer ∧
    b.reset.m_inputMessageQueue = b.m_inputMessageQueue ∧
    b.reset.m_sink.m_settings = b.m_sink.m_settings ∧
    b.reset.m_sink.m_magsq = b.m_sink.m_magsq :=
  ⟨rfl, rfl, rfl, rfl, rfl, rfl, rfl, rfl, rfl, rfl⟩

/-- C8. Reset clears the level report: in every state, `reset` followed by
`getMagSqLevels` with no processing in between returns average 0, peak 0 and
sample count 0. -/
theorem reset_then_levels_zero (b : RadioAstronomyBaseband) :
    b.reset.getMagSqLevels.1 = { avg := 0, peak := 0, nbSamples := 0 } := by
  simp [reset, getMagSqLevels, RadioAstronomySink.getMagSqLevels,
    RadioAstronomySink.resetLevels]

/-- C9. Feeding while Stopped is a silent no-op: on a pipeline that is not running,
`feed` returns normally with the state unchanged for every batch, and so does
any sequence of `feed` calls; a fresh pipeline is not running, and after any
sequence of `feed` calls on it `getMagSqLevels` reports (0, 0, 0). -/
theorem feed_while_stopped_discards (b : RadioAstronomyBaseband) (batch : SampleVector)
    (batches : List SampleVector) (h : b.isRunning = false) :
    b.feed batch = b ∧
    batches.foldl feed b = b ∧
    (∀ (defaults : RadioAstronomySettings) (rate : Int),
        (batches.foldl feed (construct defaults rate)).getMagSqLevels.1 =
          { avg := 0, peak := 0, nbSamples := 0 }) := by
  refine ⟨feed_stopped b batch h, foldl_feed_stopped batches b h, ?_⟩
  intro defaults rate
  rw [foldl_feed_stopped batches (construct defaults rate) rfl]
  simp [construct, getMagSqLevels, RadioAstronomySink.getMagSqLevels,
    RadioAstronomySink.construct]

/-- Witness of C9 on a stopped pipeline that still holds buffered samples and
non-zero counters. -/
theorem feed_while_stopped_discards_witness :
    exampleBusy.stopWork.isRunning = false ∧
    (exampleBusy.stopWork.feed [{ re := 3, im := 4 }] = exampleBusy.stopWork ∧
     [[{ re := 3, im := 4 }], [], [{ re := 1, im := 1 }]].foldl feed exampleBusy.stopWork
        = exampleBusy.stopWork ∧
     (∀ (defaults : RadioAstronomySettings) (rate : Int),
        ([[{ re := 3, im := 4 }], [], [{ re := 1, im := 1 }]].foldl feed
            (construct defaults rate)).getMagSqLevels.1 =
          { avg := 0, peak := 0, nbSamples := 0 })) :=
  ⟨rfl,
   feed_while_stopped_discards exampleBusy.stopWork [{ re := 3, im := 4 }]
     [[{ re := 3, im := 4 }], [], [{ re := 1, im := 1 }]] rfl⟩

/-- C12. The query `getMagSq` is free of side effects: in every state it returns
the sink's latest magnitude-squared and leaves the whole state (running flag,
active settings, level counters and the rest) as it was, so a second call
returns the same value and the next `getMagSqLevels` reports what it would
have reported without the two calls. -/
theorem getMagSq_is_pure_query (b : RadioAstronomyBaseband) :
    b.getMagSqCall.1 = b.m_sink.getMagSq ∧
    b.getMagSqCall.1 = b.m_sink.m_magsq ∧
    b.getMagSqCall.2.m_running = b.m_running ∧
    b.getMagSqCall.2.m_settings = b.m_settings ∧
    b.getMagSqCall.2.m_sink = b.m_sink ∧
    b.getMagSqCall.2 = b ∧
    b.getMagSqCall.2.getMagSqCall.1 = b.getMagSqCall.1 ∧
    b.getMagSqCall.2.getMagSqCall.2.getMagSqLevels = b.getMagSqLevels :=
  ⟨rfl, rfl, rfl, rfl, rfl, rfl, rfl, rfl⟩

/-- C13. Index label format: after `setDeviceType`, `setIndex` or
`setDeviceSetIndex` the label text is tag, device-set index, colon, channel
index, followed by a dot and the stream index exactly when the device type is
MIMO and the stream index is not negative; the tag is R, T, M for the three
named device types and X for any other value; and each setter changes only
its own member among device type, device-set index and channel index. -/
theorem channelGUI_index_label_format (g : ChannelGUI) (type : DeviceType) (index raw : Int) :
    ((g.setDeviceType type).m_indexLabel =
        indexLabelText type g.m_deviceSetIndex g.m_channelIndex g.streamIndex ∧
     (g.setIndex index).m_indexLabel =
        indexLabelText g.m_deviceType g.m_deviceSetIndex index g.streamIndex ∧
     (g.setDeviceSetIndex index).m_indexLabel =
        indexLabelText g.m_deviceType index g.m_channelIndex g.streamIndex) ∧
    (ChannelGUI.getDeviceTypeTag { g with m_deviceType := DeviceType.DeviceRx } = "R" ∧
     ChannelGUI.getDeviceTypeTag { g with m_deviceType := DeviceType.DeviceTx } = "T" ∧
     ChannelGUI.getDeviceTypeTag { g with m_deviceType := DeviceType.DeviceMIMO } = "M" ∧
     ChannelGUI.getDeviceTypeTag { g with m_deviceType := DeviceType.other raw } = "X") ∧
    ((g.setDeviceType type).m_deviceType = type ∧
     (g.setDeviceType type).m_deviceSetIndex = g.m_deviceSetIndex ∧
     (g.setDeviceType type).m_channelIndex = g.m_channelIndex) ∧
    ((g.setIndex index).m_channelIndex = index ∧
     (g.setIndex index).m_deviceType = g.m_deviceType ∧
     (g.setIndex index).m_deviceSetIndex = g.m_deviceSetIndex) ∧
    ((g.setDeviceSetIndex index).m_deviceSetIndex = index ∧
     (g.setDeviceSetIndex index).m_deviceType = g.m_deviceType ∧
     (g.setDeviceSetIndex index).m_channelIndex = g.m_channelIndex) := by
  refine ⟨⟨?_, ?_, ?_⟩, ⟨rfl, rfl, rfl, rfl⟩, ⟨?_, ?_, ?_⟩, ⟨?_, ?_, ?_⟩, ⟨?_, ?_, ?_⟩⟩
  · exact updateIndexLabel_text _
  · exact updateIndexLabel_text _
  · exact updateIndexLabel_text _
  all_goals
    first
      | (unfold ChannelGUI.setDeviceType; rw [updateIndexLabel_frame])
      | (unfold ChannelGUI.setIndex; rw [updateIndexLabel_frame])
      | (unfold ChannelGUI.setDeviceSetIndex; rw [updateIndexLabel_frame])

/-- C14 as stated fails: the freshly constructed channel window shows the label
X0:0, while `updateIndexLabel` computes R0:0 from its device type `DeviceRx`
and its two indexes 0. -/
theorem channelGUI_fresh_label_counterexample :
    ((ChannelGUI.construct 0).applySetters []).m_indexLabel = "X0:0" ∧
    ((ChannelGUI.construct 0).applySetters []).updateIndexLabel.m_indexLabel = "R0:0" ∧
    ((ChannelGUI.construct 0).applySetters []).m_indexLabel ≠
      ((ChannelGUI.construct 0).applySetters []).updateIndexLabel.m_indexLabel := by
  refine ⟨by decide, by decide, by decide⟩

/-- C14 (amended). Label consistency: in every state reached from construction by
at least one call of `setDeviceType`, `setIndex` or `setDeviceSetIndex`, the
label text is the text `updateIndexLabel` computes from the current device
type, device-set index, channel index and stream index; the freshly
constructed window shows X0:0. -/
theorem channelGUI_label_consistent (streamIndex : Int) (calls : List ChannelGUISetter)
    (h : calls ≠ []) :
    ((ChannelGUI.construct streamIndex).applySetters calls).m_indexLabel =
      ((ChannelGUI.construct streamIndex).applySetters calls).updateIndexLabel.m_indexLabel ∧
    ((ChannelGUI.construct streamIndex).applySetters calls).m_indexLabel =
      indexLabelText ((ChannelGUI.construct streamIndex).applySetters calls).m_deviceType
        ((ChannelGUI.construct streamIndex).applySetters calls).m_deviceSetIndex
        ((ChannelGUI.construct streamIndex).applySetters calls).m_channelIndex
        ((ChannelGUI.construct streamIndex).applySetters calls).streamIndex ∧
    (ChannelGUI.construct streamIndex).m_indexLabel = "X0:0" := by
  have key : ((ChannelGUI.construct streamIndex).applySetters calls).m_indexLabel =
      ((ChannelGUI.construct streamIndex).applySetters calls).updateIndexLabel.m_indexLabel := by
    induction calls using List.reverseRecOn with
    | nil => exact absurd rfl h
    | append_singleton front call _ =>
      rw [applySetters_append_singleton]
      exact applySetter_label _ call
  have fresh : (ChannelGUI.construct streamIndex).m_indexLabel = "X0:0" := by
    show "X" ++ argInt 0 ++ ":" ++ argInt 0 = "X0:0"
    decide
  refine ⟨key, ?_, fresh⟩
  rw [key]
  exact updateIndexLabel_text _

/-- Witness of C14 (amended): a MIMO window on stream 1 after three setter calls
shows M2:5.1. -/
theorem channelGUI_label_consistent_witness :
    [ChannelGUISetter.setDeviceType DeviceType.DeviceMIMO, ChannelGUISetter.setIndex 5,
      ChannelGUISetter.setDeviceSetIndex 2] ≠ [] ∧
    ((ChannelGUI.construct 1).applySetters
        [ChannelGUISetter.setDeviceType DeviceType.DeviceMIMO, ChannelGUISetter.setIndex 5,
          ChannelGUISetter.setDeviceSetIndex 2]).m_indexLabel = "M2:5.1" ∧
    (((ChannelGUI.construct 1).applySetters
        [ChannelGUISetter.setDeviceType DeviceType.DeviceMIMO, ChannelGUISetter.setIndex 5,
          ChannelGUISetter.setDeviceSetIndex 2]).m_indexLabel =
      ((ChannelGUI.construct 1).applySetters
        [ChannelGUISetter.setDeviceType DeviceType.DeviceMIMO, ChannelGUISetter.setIndex 5,
          ChannelGUISetter.setDeviceSetIndex 2]).updateIndexLabel.m_indexLabel) :=
  ⟨by decide, by decide,
   (channelGUI_label_consistent 1
      [ChannelGUISetter.setDeviceType DeviceType.DeviceMIMO, ChannelGUISetter.setIndex 5,
        ChannelGUISetter.setDeviceSetIndex 2] (by decide)).1⟩

/-- C15. Help URL resolution: for every help URL, `ChannelGUI::showHelp` opens
nothing when the URL is empty, opens the URL itself when it starts with
http, and otherwise opens the URL put behind the address of the master
branch on GitHub; `FeatureGUI::showHelp` resolves every URL to the same
result; the empty URL does not start with http, so the cases do not
overlap. -/
theorem showHelp_resolution (g : ChannelGUI) (f : FeatureGUI) (u : String) :
    ChannelGUI.showHelp { g with m_helpURL := u } =
      (if u = "" then none
       else if qStartsWith u "http" then some u
       else some ("https://github.com/f4exb/sdrangel/blob/master/" ++ u)) ∧
    FeatureGUI.showHelp { f with m_helpURL := u } =
      ChannelGUI.showHelp { g with m_helpURL := u } ∧
    qStartsWith "" "http" = false := by
  refine ⟨?_, rfl, by decide⟩
  unfold ChannelGUI.showHelp
  by_cases h : u = ""
  · subst h
    rfl
  · have hne : u.isEmpty = false := by
      cases hu : u.isEmpty with
      | false => rfl
      | true => exact absurd ((String.isEmpty_iff u).mp hu) h
    simp only [hne, if_neg h, Bool.false_eq_true, if_false]

/-- C16. The move-to-device-set dialog: `moveToDeviceSet(i)` is emitted exactly
when the dialog reports a change and `i` is its selected index and differs
from the current device-set index; nothing is emitted in every other case; a
move to the current device set is never requested; and the window state, the
device-set index included, is unchanged. -/
theorem openMoveToDeviceSetDialog_emits (g : ChannelGUI) (changed : Bool) (selected : Int) :
    (∀ i : Int, (g.openMoveToDeviceSetDialog changed selected).2 = some i ↔
        (changed = true ∧ i = selected ∧ i ≠ g.m_deviceSetIndex)) ∧
    ((g.openMoveToDeviceSetDialog changed selected).2 = none ↔
        ¬ (changed = true ∧ selected ≠ g.m_deviceSetIndex)) ∧
    (g.openMoveToDeviceSetDialog changed selected).2 ≠ some g.m_deviceSetIndex ∧
    (g.openMoveToDeviceSetDialog changed selected).1 = g ∧
    (g.openMoveToDeviceSetDialog changed selected).1.m_deviceSetIndex = g.m_deviceSetIndex := by
  have hstate : (g.openMoveToDeviceSetDialog changed selected).1 = g := by
    unfold ChannelGUI.openMoveToDeviceSetDialog
    split <;> rfl
  have hemit : (g.openMoveToDeviceSetDialog changed selected).2 =
      if changed = true ∧ selected ≠ g.m_deviceSetIndex then some selected else none := by
    unfold ChannelGUI.openMoveToDeviceSetDialog
    by_cases hs : selected = g.m_deviceSetIndex
    · cases changed <;> simp [hs]
    · cases changed <;> simp [hs]
  refine ⟨?_, ?_, ?_, hstate, by rw [hstate]⟩
  · intro i
    rw [hemit]
    by_cases hc : changed = true ∧ selected ≠ g.m_deviceSetIndex
    · rw [if_pos hc]
      constructor
      · intro hi
        have hsel : selected = i := Option.some.inj hi
        exact ⟨hc.1, hsel.symm, hsel ▸ hc.2⟩
      · rintro ⟨_, hi, _⟩
        rw [hi]
    · rw [if_neg hc]
      constructor
      · intro hi
        exact absurd hi (by simp)
      · rintro ⟨h1, h2, h3⟩
        exact absurd ⟨h1, h2 ▸ h3⟩ hc
  · rw [hemit]
    by_cases hc : changed = true ∧ selected ≠ g.m_deviceSetIndex
    · rw [if_pos hc]
      simp [hc]
    · rw [if_neg hc]
      simp [hc]
  · rw [hemit]
    by_cases hc : changed = true ∧ selected ≠ g.m_deviceSetIndex
    · rw [if_pos hc]
      intro hsome
      exact hc.2 (Option.some.inj hsome)
    · rw [if_neg hc]
      simp

/-- C17. Roll-up round trip, for heights that are not negative and sums that stay
within the 32-bit `int` range: hiding a widget requests the height base + C
(base 55 in a channel window, 52 in a feature window), and showing it again
while its height and the contents height are the same requests that same
height; showing a widget that was never hidden requests base + C + its
minimum height. -/
theorem onWidgetRolled_round_trip (g : ChannelGUI) (f : FeatureGUI) (C : Int)
    (w v : RolledWidget)
    (hC : 0 ≤ C) (hsum : 55 + C ≤ 2147483647)
    (hmin : 0 ≤ v.minimumHeight) (hmax : 55 + C + v.minimumHeight ≤ 2147483647)
    (hg : heightsContains g.m_heightsMap v.key = false)
    (hf : heightsContains f.m_heightsMap v.key = false) :
    ((g.onWidgetRolled C w false).2 = 55 + C ∧
     ((g.onWidgetRolled C w false).1.onWidgetRolled C w true).2 =
        (g.onWidgetRolled C w false).2 ∧
     (g.onWidgetRolled C v true).2 = 55 + C + v.minimumHeight) ∧
    ((f.onWidgetRolled C w false).2 = 52 + C ∧
     ((f.onWidgetRolled C w false).1.onWidgetRolled C w true).2 =
        (f.onWidgetRolled C w false).2 ∧
     (f.onWidgetRolled C v true).2 = 52 + C + v.minimumHeight) := by
  have h55 : intAdd 52 3 = 55 := by decide
  have hc55 : intAdd 55 C = 55 + C := wrapInt_of_fits _ (by omega) (by omega)
  have hc52 : intAdd 52 C = 52 + C := wrapInt_of_fits _ (by omega) (by omega)
  have hz55 : intAdd (55 + C) 0 = 55 + C := by
    unfold intAdd
    rw [add_zero]
    exact wrapInt_of_fits _ (by omega) (by omega)
  have hz52 : intAdd (52 + C) 0 = 52 + C := by
    unfold intAdd
    rw [add_zero]
    exact wrapInt_of_fits _ (by omega) (by omega)
  have hv55 : intAdd (55 + C) v.minimumHeight = 55 + C + v.minimumHeight :=
    wrapInt_of_fits _ (by omega) (by omega)
  have hv52 : intAdd (52 + C) v.minimumHeight = 52 + C + v.minimumHeight :=
    wrapInt_of_fits _ (by omega) (by omega)
  refine ⟨⟨?_, ?_, ?_⟩, ⟨?_, ?_, ?_⟩⟩
  · simp [ChannelGUI.onWidgetRolled, h55, hc55]
  · simp [ChannelGUI.onWidgetRolled, heightsContains_insert, heightsValue_insert,
      intSub_self, h55, hc55, hz55]
  · simp [ChannelGUI.onWidgetRolled, hg, h55, hc55, hv55]
  · simp [FeatureGUI.onWidgetRolled, hc52]
  · simp [FeatureGUI.onWidgetRolled, heightsContains_insert, heightsValue_insert,
      intSub_self, hc52, hz52]
  · simp [FeatureGUI.onWidgetRolled, hf, hc52, hv52]

/-- Witness of C17: widget 7, remembered from an earlier hide at another height,
is hidden at height 95 and shown again; widget 9 was never hidden. -/
theorem onWidgetRolled_round_trip_witness :
    ((0 : Int) ≤ 300 ∧ (55 : Int) + 300 ≤ 2147483647 ∧ (0 : Int) ≤ 30 ∧
     (55 : Int) + 300 + 30 ≤ 2147483647 ∧
     heightsContains exampleChannelGUI.m_heightsMap 9 = false ∧
     heightsContains exampleFeatureGUI.m_heightsMap 9 = false) ∧
    (((exampleChannelGUI.onWidgetRolled 300 { key := 7, height := 95, minimumHeight := 40 }
          false).2 = 55 + 300 ∧
      ((exampleChannelGUI.onWidgetRolled 300 { key := 7, height := 95, minimumHeight := 40 }
          false).1.onWidgetRolled 300 { key := 7, height := 95, minimumHeight := 40 } true).2 =
        (exampleChannelGUI.onWidgetRolled 300 { key := 7, height := 95, minimumHeight := 40 }
          false).2 ∧
      (exampleChannelGUI.onWidgetRolled 300 { key := 9, height := 0, minimumHeight := 30 }
          true).2 = 55 + 300 + 30) ∧
     ((exampleFeatureGUI.onWidgetRolled 300 { key := 7, height := 95, minimumHeight := 40 }
          false).2 = 52 + 300 ∧
      ((exampleFeatureGUI.onWidgetRolled 300 { key := 7, height := 95, minimumHeight := 40 }
          false).1.onWidgetRolled 300 { key := 7, height := 95, minimumHeight := 40 } true).2 =
        (exampleFeatureGUI.onWidgetRolled 300 { key := 7, height := 95, minimumHeight := 40 }
          false).2 ∧
      (exampleFeatureGUI.onWidgetRolled 300 { key := 9, height := 0, minimumHeight := 30 }
          true).2 = 52 + 300 + 30)) :=
  ⟨⟨by decide, by decide, by decide, by decide, by decide, by decide⟩,
   onWidgetRolled_round_trip exampleChannelGUI exampleFeatureGUI 300
     { key := 7, height := 95, minimumHeight := 40 }
     { key := 9, height := 0, minimumHeight := 30 }
     (by decide) (by decide) (by decide) (by decide) (by decide) (by decide)⟩

end SDRangel
